import Mathlib

/-!
Shallow embedding of `scripts/geocode.py` (apartment-listing geocoding
pipeline): numeric field parsing (`to_float`, `to_int`), viewbox
configuration parsing (`parse_viewbox`), the distance-filtered lookup
wrapper (`geocode_query`), the per-row resolution loop of `main`
(`processRow`, `runRows`), and cache loading (`load_cache`).

Python floats are modelled as rationals (`ℚ`); the external Nominatim
lookup (wrapped in a `RateLimiter` with `swallow_exceptions=True`, so a
network error is the same as "no result") is modelled as an oracle
`ext : String → Option Coord`; the transcendental great-circle distance
`haversine_km` is modelled as an oracle parameter
`hav : ℚ → ℚ → ℚ → ℚ → ℚ`, so every theorem about the distance filter
holds for any distance function. Printed warnings are modelled as
structured `Warn` values carrying exactly the data the print statements
interpolate.
-/

unseal Rat.mul Rat.inv Rat.add Rat.sub Rat.ofScientific

namespace Geocode

/-- Checks that the first list is an initial segment of the second
(character-level helper for substring search). -/
def leadsWith : List Char → List Char → Bool
  | [], _ => true
  | _ :: _, [] => false
  | p :: ps, c :: cs => p == c && leadsWith ps cs

/-- Substring test: models Python `pat in s`. -/
def strContains (s pat : String) : Bool :=
  (List.range (s.toList.length + 1)).any fun i => leadsWith pat.toList (s.toList.drop i)

/-- ASCII whitespace test (the whitespace kinds Python `str.strip`
removes that occur in CSV cells). -/
def isSpace (c : Char) : Bool :=
  c == ' ' || c == '\t' || c == '\n' || c == '\r'

/-- Models Python `str.strip()`: drop whitespace from both ends. -/
def pyStrip (s : String) : String :=
  ((s.toList.dropWhile isSpace).reverse.dropWhile isSpace).reverse.asString

/-- Models Python `str.lower()` (ASCII case folding, the only case this
dataset uses). -/
def pyLower (s : String) : String :=
  (s.toList.map Char.toLower).asString

/-- Models the call `str.replace(",", ".")`: both pattern and
replacement are single characters, so this is a character map. -/
def pyCommaToDot (s : String) : String :=
  (s.toList.map (fun c => if c == ',' then '.' else c)).asString

/-- Splits a character list at commas (helper for `str.split(",")`). -/
def splitCommaAux : List Char → List Char → List String
  | [], acc => [acc.reverse.asString]
  | c :: cs, acc =>
    if c == ',' then acc.reverse.asString :: splitCommaAux cs []
    else splitCommaAux cs (c :: acc)

/-- Models Python `s.split(",")`. -/
def pySplitComma (s : String) : List String :=
  splitCommaAux s.toList []

/-- Models `norm_key` (geocode.py line 61): `str(s).strip().lower()`
at the call sites, which only pass strings. -/
def norm_key (s : String) : String := pyLower (pyStrip s)

/-- Models Python `(v or "")` for an optional string: `None` and the falsy
empty string both give `""`. -/
def orEmpty (v : Option String) : String :=
  match v with
  | none => ""
  | some s => s

/-- Models Python `(v or None)` for an optional string: the falsy empty
string is turned into `None`. -/
def orNone (v : Option String) : Option String :=
  match v with
  | none => none
  | some s => if s = "" then none else some s

/-- Models Python f-string interpolation of an `Optional[str]`: `None`
prints as the four characters `None`. -/
def optStr (v : Option String) : String :=
  match v with
  | none => "None"
  | some s => s

/-- Value of a digit list read in base 10 (helper for float parsing). -/
def digitsVal (l : List Char) : ℚ :=
  l.foldl (fun a c => a * 10 + ((c.toNat : ℚ) - 48)) 0

/-- Value of a digit list read as a decimal fraction (helper for float
parsing). -/
def fracVal (l : List Char) : ℚ :=
  digitsVal l / 10 ^ l.length

/-- Models Python `float(s)` on plain decimal literals (optional sign,
digits, optional fractional part); scientific notation and inf/nan
forms, never produced by this dataset, are treated as unparsable.
Returns `none` where `float` raises `ValueError`. -/
def pyFloat? (s : String) : Option ℚ :=
  let cs := s.toList
  let signRest : ℚ × List Char :=
    match cs with
    | '-' :: r => (-1, r)
    | '+' :: r => (1, r)
    | r => (1, r)
  let intPart := signRest.2.takeWhile Char.isDigit
  let rest := signRest.2.dropWhile Char.isDigit
  match rest with
  | [] => if intPart.isEmpty then none else some (signRest.1 * digitsVal intPart)
  | '.' :: frac =>
    if frac.all Char.isDigit && !(intPart.isEmpty && frac.isEmpty) then
      some (signRest.1 * (digitsVal intPart + fracVal frac))
    else none
  | _ => none

/-- Models `to_float` (geocode.py lines 73-80): `None`/empty give `None`;
otherwise commas become periods, the string is stripped, and a failed
`float(...)` is caught and gives `None`. -/
def to_float (v : Option String) : Option ℚ :=
  match v with
  | none => none
  | some s =>
    if s = "" then none
    else pyFloat? (pyStrip (pyCommaToDot s))

/-- Models Python `int(q)` on a float value: truncation toward zero. -/
def pyTrunc (q : ℚ) : Int :=
  if 0 ≤ q then q.floor else q.ceil

/-- Models `to_int` (geocode.py lines 82-88): `None`/empty give `None`;
otherwise `int(float(...))` with any exception caught giving `None`. -/
def to_int (v : Option String) : Option Int :=
  match v with
  | none => none
  | some s =>
    if s = "" then none
    else (pyFloat? (pyStrip (pyCommaToDot s))).map pyTrunc

/-- Models `parse_viewbox` (geocode.py lines 36-50): splits on commas,
parses each piece as a float after stripping; on exactly four floats
`left, top, right, bottom` returns the string unchanged together with the
computed center `(lat, lon)`; any failure (wrong count or unparsable
piece) is caught and yields `None`. -/
def parse_viewbox (s : String) : Option (String × ℚ × ℚ) :=
  match (pySplitComma s).map (fun x => pyFloat? (pyStrip x)) with
  | [some left, some top, some right, some bottom] =>
    some (s, (top + bottom) / 2, (left + right) / 2)
  | _ => none

/-- Run configuration: the environment-derived constants `CITY_HINT`,
`VIEWBOX_STR`, `COUNTRY_CODES`, `MAX_KM` of geocode.py lines 28-34. -/
structure GeoConfig where
  cityHint : String
  viewboxStr : String
  countryCodes : String
  maxKm : ℚ
deriving DecidableEq

/-- Models the constant `VIEWBOX_PARAM` (geocode.py line 50). -/
def viewboxParam (cfg : GeoConfig) : Option String :=
  (parse_viewbox cfg.viewboxStr).map (fun t => t.1)

/-- Models the constant `CENTER_LAT` (geocode.py line 50). -/
def centerLat (cfg : GeoConfig) : Option ℚ :=
  (parse_viewbox cfg.viewboxStr).map (fun t => t.2.1)

/-- Models the constant `CENTER_LON` (geocode.py line 50). -/
def centerLon (cfg : GeoConfig) : Option ℚ :=
  (parse_viewbox cfg.viewboxStr).map (fun t => t.2.2)

/-- The keyword parameters `geocode_query` passes to the external lookup
(geocode.py lines 94-102): `viewbox`/`bounded` are included only when
`VIEWBOX_PARAM` is truthy. -/
structure LookupParams where
  language : String
  country_codes : String
  exactly_one : Bool
  addressdetails : Bool
  viewbox : Option String
  bounded : Option Bool
deriving DecidableEq

/-- Models the `params` dict built in `geocode_query`. -/
def geocodeParams (cfg : GeoConfig) : LookupParams :=
  { language := "fr"
    country_codes := cfg.countryCodes
    exactly_one := true
    addressdetails := false
    viewbox := viewboxParam cfg
    bounded := (viewboxParam cfg).map (fun _ => true) }

/-- A geocoding result: `loc.latitude`, `loc.longitude` in the source. -/
structure Coord where
  lat : ℚ
  lon : ℚ
deriving DecidableEq

/-- Structured model of the two warning prints of geocode.py:
`tooFar query d` is the line-107 rejection warning naming the query and
the measured distance, `notFound i query` is the line-164 per-row miss
warning naming the row number and the query. -/
inductive Warn where
  | tooFar (query : String) (d : ℚ)
  | notFound (line : Nat) (query : String)
deriving DecidableEq

/-- Models `geocode_query` (geocode.py lines 90-110): call the external
lookup, then, when a location came back, the center is configured and
`MAX_KM > 0`, reject it with a warning if its distance `hav` from the
center exceeds `MAX_KM`; otherwise return it unchanged. -/
def geocode_query (hav : ℚ → ℚ → ℚ → ℚ → ℚ) (cfg : GeoConfig)
    (ext : String → Option Coord) (query : String) :
    Option Coord × List Warn :=
  match ext query with
  | none => (none, [])
  | some loc =>
    match centerLat cfg, centerLon cfg with
    | some cLat, some cLon =>
      if cfg.maxKm > 0 then
        let d := hav cLat cLon loc.lat loc.lon
        if d > cfg.maxKm then (none, [Warn.tooFar query d])
        else (some loc, [])
      else (some loc, [])
    | _, _ => (some loc, [])

/-- The in-memory cache: a Python dict from key strings to either a
coordinate pair or the explicit negative marker `null`/`None`
(modelled as `none`). -/
abbrev Cache := List (String × Option Coord)

/-- Models Python `cache.get(key)`: returns the stored value, or `None`
when the key is absent — an absent key and a stored `None` negative
marker are indistinguishable to the caller. -/
def dictGet (c : Cache) (k : String) : Option Coord :=
  match c.lookup k with
  | some v => v
  | none => none

/-- Models Python `cache[key] = v`: the stored binding for `k` becomes
`v`, other keys are untouched. -/
def dictSet (c : Cache) (k : String) (v : Option Coord) : Cache :=
  (k, v) :: c.filter (fun p => p.1 != k)

/-- Models the cache-key computation of geocode.py line 152:
`norm_key(f"{query}|{VIEWBOX_PARAM}|{COUNTRY_CODES}")`. -/
def cacheKey (cfg : GeoConfig) (query : String) : String :=
  norm_key (query ++ "|" ++ optStr (viewboxParam cfg) ++ "|" ++ cfg.countryCodes)

/-- One CSV row after header normalization: the known columns, each
either absent or carrying the raw cell text. -/
structure Row where
  loyer : Option String := none
  adresse : Option String := none
  cuisine_equipee : Option String := none
  type : Option String := none
  parking : Option String := none
  chambres : Option String := none
  surface_m2 : Option String := none
  url : Option String := none
  label : Option String := none
  latitude : Option String := none
  longitude : Option String := none
deriving DecidableEq

/-- Models the value-cleaning loop of geocode.py lines 131-136: every
present string cell is stripped. -/
def cleanRow (r : Row) : Row :=
  { loyer := r.loyer.map pyStrip
    adresse := r.adresse.map pyStrip
    cuisine_equipee := r.cuisine_equipee.map pyStrip
    type := r.type.map pyStrip
    parking := r.parking.map pyStrip
    chambres := r.chambres.map pyStrip
    surface_m2 := r.surface_m2.map pyStrip
    url := r.url.map pyStrip
    label := r.label.map pyStrip
    latitude := r.latitude.map pyStrip
    longitude := r.longitude.map pyStrip }

/-- One output record of `data/apartments.json` (geocode.py
lines 168-180). -/
structure OutRec where
  loyer : Option Int
  adresse : Option String
  cuisine_equipee : Option String
  type : Option String
  parking : Option String
  chambres : Option Int
  surface_m2 : Option ℚ
  url : Option String
  label : Option String
  latitude : Option ℚ
  longitude : Option ℚ
deriving DecidableEq

/-- Models the query construction of geocode.py lines 141-148: the
stripped `adresse` if non-empty, else `Quartier {label}, {CITY_HINT}`
when the stripped label is non-empty, else the empty string. -/
def buildQuery (cfg : GeoConfig) (row : Row) : String :=
  let q := pyStrip (orEmpty row.adresse)
  if q = "" then
    let lab := pyStrip (orEmpty row.label)
    if lab = "" then "" else "Quartier " ++ lab ++ ", " ++ cfg.cityHint
  else q

/-- The retry query of geocode.py line 158:
`f"Quartier {row.get('label').strip()}, {CITY_HINT}"`. -/
def fallbackQuery (cfg : GeoConfig) (row : Row) : String :=
  "Quartier " ++ pyStrip (orEmpty row.label) ++ ", " ++ cfg.cityHint

/-- Result of the cache-consulting lookup step for one row. -/
structure StepOut where
  loc : Option Coord
  cache : Cache
  calls : List String
  warns : List Warn
deriving DecidableEq

/-- Models geocode.py lines 152-161: compute the key of the (first)
query, consult the cache with `cache.get`; on a miss issue the lookup,
retry with the `Quartier`-prefixed label when the first lookup failed,
the query does not already contain `quartier`, and a label exists; then
store the outcome (a coordinate, or the `None` negative marker) under
the first query's key. `calls` records each external lookup issued, in
order. -/
def resolveStep (hav : ℚ → ℚ → ℚ → ℚ → ℚ) (cfg : GeoConfig)
    (ext : String → Option Coord) (cache : Cache) (row : Row)
    (query : String) : StepOut :=
  let key := cacheKey cfg query
  match dictGet cache key with
  | some c => { loc := some c, cache := cache, calls := [], warns := [] }
  | none =>
    let r1 := geocode_query hav cfg ext query
    if r1.1.isNone && !(strContains (pyLower query) "quartier")
        && (pyStrip (orEmpty row.label) != "") then
      let q2 := fallbackQuery cfg row
      let r2 := geocode_query hav cfg ext q2
      { loc := r2.1, cache := dictSet cache key r2.1,
        calls := [query, q2], warns := r1.2 ++ r2.2 }
    else
      { loc := r1.1, cache := dictSet cache key r1.1,
        calls := [query], warns := r1.2 }

/-- Coordinate/cache outcome of the geocoding section for one row. -/
structure GeoOut where
  lat : Option ℚ
  lon : Option ℚ
  cache : Cache
  calls : List String
  warns : List Warn
  missedInc : Nat
deriving DecidableEq

/-- Models geocode.py lines 137-165 for one (already cleaned) row: parse
the row's own coordinates; when at least one is missing and a query
exists, resolve through the cache; a truthy result overwrites both
coordinates, a falsy one leaves them and bumps the `missing_geo`
counter with a warning. -/
def geoPhase (hav : ℚ → ℚ → ℚ → ℚ → ℚ) (cfg : GeoConfig)
    (ext : String → Option Coord) (cache0 : Cache) (i : Nat)
    (row : Row) : GeoOut :=
  let lat0 := to_float row.latitude
  let lon0 := to_float row.longitude
  let query := buildQuery cfg row
  if (lat0.isNone || lon0.isNone) && (query != "") then
    let r := resolveStep hav cfg ext cache0 row query
    match r.loc with
    | some c =>
      { lat := some c.lat, lon := some c.lon, cache := r.cache,
        calls := r.calls, warns := r.warns, missedInc := 0 }
    | none =>
      { lat := lat0, lon := lon0, cache := r.cache, calls := r.calls,
        warns := r.warns ++ [Warn.notFound i query], missedInc := 1 }
  else
    { lat := lat0, lon := lon0, cache := cache0, calls := [],
      warns := [], missedInc := 0 }

/-- Everything one iteration of the main loop produces. -/
structure RowResult where
  outRec : OutRec
  cache : Cache
  calls : List String
  warns : List Warn
  missedInc : Nat
deriving DecidableEq

/-- Models one iteration of the loop of geocode.py lines 129-180:
clean the raw row, run the geocoding phase, and build the output
record (empty strings becoming `null`, numeric fields parsed). -/
def processRow (hav : ℚ → ℚ → ℚ → ℚ → ℚ) (cfg : GeoConfig)
    (ext : String → Option Coord) (cache0 : Cache) (i : Nat)
    (raw : Row) : RowResult :=
  let row := cleanRow raw
  let g := geoPhase hav cfg ext cache0 i row
  { outRec :=
      { loyer := to_int row.loyer
        adresse := orNone row.adresse
        cuisine_equipee := orNone row.cuisine_equipee
        type := orNone row.type
        parking := orNone row.parking
        chambres := to_int row.chambres
        surface_m2 := to_float row.surface_m2
        url := orNone row.url
        label := orNone row.label
        latitude := g.lat
        longitude := g.lon }
    cache := g.cache
    calls := g.calls
    warns := g.warns
    missedInc := g.missedInc }

/-- Accumulated state of a whole run of `main`'s loop. -/
structure RunState where
  out : List OutRec
  cache : Cache
  calls : List String
  warns : List Warn
  missing_geo : Nat
deriving DecidableEq

/-- Folds `processRow` over the rows, threading the cache and
accumulating outputs, external calls, warnings and the
`missing_geo` counter. -/
def runRows (hav : ℚ → ℚ → ℚ → ℚ → ℚ) (cfg : GeoConfig)
    (ext : String → Option Coord) :
    Cache → Nat → List Row → RunState
  | cache, _, [] =>
    { out := [], cache := cache, calls := [], warns := [], missing_geo := 0 }
  | cache, i, r :: rs =>
    let p := processRow hav cfg ext cache i r
    let rest := runRows hav cfg ext p.cache (i + 1) rs
    { out := p.outRec :: rest.out
      cache := rest.cache
      calls := p.calls ++ rest.calls
      warns := p.warns ++ rest.warns
      missing_geo := p.missedInc + rest.missing_geo }

/-- A run over a row list, rows numbered from 1 as in
`enumerate(rows, start=1)`. -/
def runAll (hav : ℚ → ℚ → ℚ → ℚ → ℚ) (cfg : GeoConfig)
    (ext : String → Option Coord) (cache : Cache) (rows : List Row) :
    RunState :=
  runRows hav cfg ext cache 1 rows

/-- Models `load_cache` (geocode.py lines 63-66). The cache file is
`none` when absent; `jsonLoads` models the library call `json.loads`,
whose failures are exceptions (`Except.error`). The source wraps the
parse in no handler, so a parse error propagates out of `load_cache`. -/
def load_cache (jsonLoads : String → Except String Cache)
    (file : Option String) : Except String Cache :=
  match file with
  | some txt => jsonLoads txt
  | none => Except.ok []

/-! Concrete fixtures: the default configuration of geocode.py
lines 28-34, and sample oracles and rows used to evaluate the model. -/

/-- The default configuration: `CITY_HINT`, `VIEWBOX_STR`,
`COUNTRY_CODES`, `MAX_KM` as shipped. -/
def cfg0 : GeoConfig :=
  { cityHint := "Montpellier, France"
    viewboxStr := "3.75,43.72,4.05,43.53"
    countryCodes := "fr"
    maxKm := 30 }

/-- A configuration whose viewbox string does not parse. -/
def cfgBad : GeoConfig :=
  { cityHint := "Montpellier, France"
    viewboxStr := "oops"
    countryCodes := "fr"
    maxKm := 30 }

/-- A distance oracle that always measures 0 km (every result
in-region). -/
def hav0 : ℚ → ℚ → ℚ → ℚ → ℚ := fun _ _ _ _ => 0

/-- A distance oracle that always measures 750 km (every result far
out of region). -/
def havFar : ℚ → ℚ → ℚ → ℚ → ℚ := fun _ _ _ _ => 750

/-- A lookup oracle that never finds anything. -/
def extNone : String → Option Coord := fun _ => none

/-- A lookup oracle that always answers with a Paris coordinate
(out of the Montpellier region). -/
def extParis : String → Option Coord :=
  fun _ => some { lat := 4885 / 100, lon := 235 / 100 }

/-- A lookup oracle that always answers with a central Montpellier
coordinate. -/
def extComedie : String → Option Coord :=
  fun _ => some { lat := 43608 / 1000, lon := 3879 / 1000 }

/-- A row carrying only an address. -/
def rowA1 : Row := { adresse := some "12 Rue de la Loge" }

/-- A loaded cache holding the explicit negative marker for `rowA1`'s
query key under the default configuration. -/
def negCache : Cache := [(cacheKey cfg0 "12 Rue de la Loge", none)]

/-- A row with empty address and label and an unparsable surface. -/
def rowNoLoc : Row :=
  { adresse := some "", label := some "", surface_m2 := some "abc" }

/-- Two rows with distinct addresses and the same label. -/
def rowAdr1 : Row := { adresse := some "Addr One St", label := some "Ovalie" }

/-- Second row with a distinct address and the same label. -/
def rowAdr2 : Row := { adresse := some "Addr Two St", label := some "Ovalie" }

/-- A row with only a label. -/
def rowLabelOnly : Row := { label := some "Ovalie" }

/-- A row that already carries both coordinates (comma decimal in one). -/
def rowCoords : Row :=
  { adresse := some "12 Rue Foo", latitude := some "43,6", longitude := some "3.87" }

/-- A row with an address and exactly one coordinate present. -/
def rowHalf : Row :=
  { adresse := some "Place de la Comedie", latitude := some "43,6" }

/-- A stand-in for `json.loads` restricted to two behaviours: the empty
JSON object parses to the empty cache, anything else raises the parse
error `json.loads` reports on non-JSON text. -/
def jsonLoadsDemo : String → Except String Cache := fun s =>
  if s = "\x7b\x7d" then Except.ok [] else Except.error "Expecting value"

/-! Helper lemmas about the embedded operations. -/

/-- Writing a key makes it present: `List.lookup` after `dictSet`. -/
theorem lookup_dictSet (c : Cache) (k : String) (v : Option Coord) :
    List.lookup k (dictSet c k v) = some v := by
  simp [dictSet, List.lookup]

/-- The output record's coordinate, cache, call and counter fields of
`processRow` are those of the geocoding phase on the cleaned row. -/
theorem processRow_fields (hav : ℚ → ℚ → ℚ → ℚ → ℚ) (cfg : GeoConfig)
    (ext : String → Option Coord) (cache0 : Cache) (i : Nat) (raw : Row) :
    (processRow hav cfg ext cache0 i raw).outRec.latitude
        = (geoPhase hav cfg ext cache0 i (cleanRow raw)).lat
    ∧ (processRow hav cfg ext cache0 i raw).outRec.longitude
        = (geoPhase hav cfg ext cache0 i (cleanRow raw)).lon
    ∧ (processRow hav cfg ext cache0 i raw).cache
        = (geoPhase hav cfg ext cache0 i (cleanRow raw)).cache
    ∧ (processRow hav cfg ext cache0 i raw).calls
        = (geoPhase hav cfg ext cache0 i (cleanRow raw)).calls
    ∧ (processRow hav cfg ext cache0 i raw).missedInc
        = (geoPhase hav cfg ext cache0 i (cleanRow raw)).missedInc :=
  ⟨rfl, rfl, rfl, rfl, rfl⟩

/-- When both coordinates of the row parse, the geocoding phase is
skipped entirely. -/
theorem geoPhase_coords_present (hav : ℚ → ℚ → ℚ → ℚ → ℚ)
    (cfg : GeoConfig) (ext : String → Option Coord) (cache0 : Cache)
    (i : Nat) (row : Row) (a b : ℚ)
    (h1 : to_float row.latitude = some a)
    (h2 : to_float row.longitude = some b) :
    geoPhase hav cfg ext cache0 i row =
      { lat := some a, lon := some b, cache := cache0, calls := [],
        warns := [], missedInc := 0 } := by
  unfold geoPhase
  dsimp only
  rw [h1, h2]
  rfl

/-- When no query can be built, the geocoding phase is skipped. -/
theorem geoPhase_noQuery (hav : ℚ → ℚ → ℚ → ℚ → ℚ) (cfg : GeoConfig)
    (ext : String → Option Coord) (cache0 : Cache) (i : Nat) (row : Row)
    (h : buildQuery cfg row = "") :
    geoPhase hav cfg ext cache0 i row =
      { lat := to_float row.latitude, lon := to_float row.longitude,
        cache := cache0, calls := [], warns := [], missedInc := 0 } := by
  unfold geoPhase
  rw [h]
  simp

/-- A cache hit returns the stored coordinate with no external call and
no cache mutation. -/
theorem resolveStep_hit (hav : ℚ → ℚ → ℚ → ℚ → ℚ) (cfg : GeoConfig)
    (ext : String → Option Coord) (cache : Cache) (row : Row)
    (query : String) (c : Coord)
    (h : dictGet cache (cacheKey cfg query) = some c) :
    resolveStep hav cfg ext cache row query =
      { loc := some c, cache := cache, calls := [], warns := [] } := by
  unfold resolveStep
  dsimp only
  rw [h]

/-- On a cache miss, whatever the lookup produced (a coordinate or the
negative marker) is stored under the first query's key, and the first
external call is for that query. -/
theorem resolveStep_miss (hav : ℚ → ℚ → ℚ → ℚ → ℚ) (cfg : GeoConfig)
    (ext : String → Option Coord) (cache : Cache) (row : Row)
    (query : String)
    (h : dictGet cache (cacheKey cfg query) = none) :
    (resolveStep hav cfg ext cache row query).cache =
      dictSet cache (cacheKey cfg query)
        (resolveStep hav cfg ext cache row query).loc
    ∧ (resolveStep hav cfg ext cache row query).calls.head? = some query := by
  unfold resolveStep
  dsimp only
  rw [h]
  dsimp only
  split <;> exact ⟨rfl, rfl⟩

/-- On a cache miss where the first lookup already succeeds, the
coordinate is accepted, stored under the first query's key, and no
retry happens. -/
theorem resolveStep_first_success (hav : ℚ → ℚ → ℚ → ℚ → ℚ)
    (cfg : GeoConfig) (ext : String → Option Coord) (cache : Cache)
    (row : Row) (query : String) (c : Coord) (ws : List Warn)
    (hmiss : dictGet cache (cacheKey cfg query) = none)
    (hext : geocode_query hav cfg ext query = (some c, ws)) :
    resolveStep hav cfg ext cache row query =
      { loc := some c,
        cache := dictSet cache (cacheKey cfg query) (some c),
        calls := [query], warns := ws } := by
  unfold resolveStep
  dsimp only
  rw [hmiss]
  dsimp only
  rw [hext]
  rfl

/-- When both lookup attempts fail, the resolution yields the negative
marker. -/
theorem resolveStep_loc_none (hav : ℚ → ℚ → ℚ → ℚ → ℚ) (cfg : GeoConfig)
    (ext : String → Option Coord) (cache : Cache) (row : Row)
    (query : String)
    (h : dictGet cache (cacheKey cfg query) = none)
    (hq : (geocode_query hav cfg ext query).1 = none)
    (hf : (geocode_query hav cfg ext (fallbackQuery cfg row)).1 = none) :
    (resolveStep hav cfg ext cache row query).loc = none := by
  unfold resolveStep
  dsimp only
  rw [h]
  dsimp only
  split
  · exact hf
  · exact hq

/-- Under a configured center, a positive maximum distance and a distance
oracle that puts every returned coordinate beyond it, the lookup wrapper
never returns a coordinate. -/
theorem geocode_query_far_none (hav : ℚ → ℚ → ℚ → ℚ → ℚ)
    (cfg : GeoConfig) (ext : String → Option Coord) (clat clon : ℚ)
    (hlat : centerLat cfg = some clat) (hlon : centerLon cfg = some clon)
    (hmax : 0 < cfg.maxKm)
    (hfar : ∀ q c, ext q = some c → cfg.maxKm < hav clat clon c.lat c.lon)
    (q : String) : (geocode_query hav cfg ext q).1 = none := by
  unfold geocode_query
  cases hE : ext q with
  | none => rfl
  | some loc =>
    rw [hlat, hlon]
    dsimp only
    rw [if_pos hmax, if_pos (hfar q loc hE)]

/-- A nonempty-label fallback query is never the empty string. -/
theorem quartier_ne_empty (lab t : String) :
    ("Quartier " ++ lab ++ ", " ++ t) ≠ "" := by
  intro h
  have hlen := congrArg String.length h
  rw [String.length_append, String.length_append, String.length_append] at hlen
  have e1 : ("Quartier " : String).length = 9 := rfl
  have e2 : (", " : String).length = 2 := rfl
  have e3 : ("" : String).length = 0 := rfl
  omega

/-! Claim theorems. -/

/-- C1: the claim says a loaded negative cache entry is used without
issuing any external lookup. The code stores the negative marker as
`None`, which `cache.get` cannot tell apart from an absent key, so at a
key whose loaded entry is the negative marker the external lookup is
issued again: with the entry present in the cache (first conjunct), the
row's resolution still performs one external call (second conjunct) and,
the lookup failing again, counts the row as missing. -/
theorem c1_loaded_negative_entry_reissues_lookup :
    List.lookup (cacheKey cfg0 "12 Rue de la Loge") negCache = some none
    ∧ (processRow hav0 cfg0 extNone negCache 1 rowA1).calls
        = ["12 Rue de la Loge"]
    ∧ (processRow hav0 cfg0 extNone negCache 1 rowA1).missedInc = 1 := by
  decide

/-- C2 counterexample: the claim says a malformed cache file is treated
as an empty cache and the run proceeds. `load_cache` wraps the parse in
no handler, so when `json.loads` raises on non-JSON text the error
propagates: the result is the parse error, not the empty cache. -/
theorem c2_malformed_cache_aborts :
    load_cache jsonLoadsDemo (some "not json")
        = Except.error "Expecting value"
    ∧ load_cache jsonLoadsDemo (some "not json") ≠ Except.ok [] := by
  exact ⟨rfl, fun h => Except.noConfusion h⟩

/-- C2 amended: an absent cache file yields the empty cache, but a cache
file whose contents fail to parse makes `load_cache` propagate the parse
error (the run aborts rather than proceeding with an empty cache). -/
theorem c2_load_cache_absent_empty_malformed_fatal :
    (∀ p : String → Except String Cache, load_cache p none = Except.ok [])
    ∧ ∀ (p : String → Except String Cache) (txt e : String),
        p txt = Except.error e →
        load_cache p (some txt) = Except.error e :=
  ⟨fun _ => rfl, fun _ _ _ h => h⟩

/-- C2 witness: the amended behaviour at concrete inputs. -/
theorem c2_load_cache_witness :
    load_cache jsonLoadsDemo none = Except.ok []
    ∧ load_cache jsonLoadsDemo (some "nope") = Except.error "Expecting value" :=
  ⟨c2_load_cache_absent_empty_malformed_fatal.1 jsonLoadsDemo,
   c2_load_cache_absent_empty_malformed_fatal.2 jsonLoadsDemo "nope"
     "Expecting value" rfl⟩

/-- C3: with a valid region constraint (parsed center, positive
`MAX_KM`) and a distance oracle putting every returned coordinate
beyond `MAX_KM`, every lookup is rejected with a warning naming the
query and the measured distance, and the output record keeps the row's
own (missing) coordinates — the out-of-region coordinate never lands in
the output. -/
theorem c3_out_of_region_rejected_never_output
    (hav : ℚ → ℚ → ℚ → ℚ → ℚ) (cfg : GeoConfig)
    (ext : String → Option Coord) (cache0 : Cache) (i : Nat) (raw : Row)
    (clat clon : ℚ)
    (hlat : centerLat cfg = some clat) (hlon : centerLon cfg = some clon)
    (hmax : 0 < cfg.maxKm)
    (hfar : ∀ q c, ext q = some c → cfg.maxKm < hav clat clon c.lat c.lon) :
    (∀ q c, ext q = some c →
      geocode_query hav cfg ext q
        = (none, [Warn.tooFar q (hav clat clon c.lat c.lon)]))
    ∧ (dictGet cache0 (cacheKey cfg (buildQuery cfg (cleanRow raw))) = none →
        (processRow hav cfg ext cache0 i raw).outRec.latitude
            = to_float (cleanRow raw).latitude
        ∧ (processRow hav cfg ext cache0 i raw).outRec.longitude
            = to_float (cleanRow raw).longitude) := by
  constructor
  · intro q c hE
    unfold geocode_query
    rw [hE, hlat, hlon]
    dsimp only
    rw [if_pos hmax, if_pos (hfar q c hE)]
  · intro hmiss
    have hnone : ∀ q, (geocode_query hav cfg ext q).1 = none := fun q =>
      geocode_query_far_none hav cfg ext clat clon hlat hlon hmax hfar q
    have hloc := resolveStep_loc_none hav cfg ext cache0 (cleanRow raw)
      (buildQuery cfg (cleanRow raw)) hmiss (hnone _) (hnone _)
    have hlatp : (geoPhase hav cfg ext cache0 i (cleanRow raw)).lat
        = to_float (cleanRow raw).latitude := by
      unfold geoPhase
      dsimp only
      split
      · rw [hloc]
      · rfl
    have hlonp : (geoPhase hav cfg ext cache0 i (cleanRow raw)).lon
        = to_float (cleanRow raw).longitude := by
      unfold geoPhase
      dsimp only
      split
      · rw [hloc]
      · rfl
    exact ⟨hlatp, hlonp⟩

/-- C3 witness: under the default configuration, a distance oracle
measuring 750 km and a lookup oracle answering a Paris coordinate for
every query, the lookup wrapper rejects the result with the warning
naming query and distance, and the address-only row ends with null
coordinates. -/
theorem c3_witness :
    geocode_query havFar cfg0 extParis "Foo"
        = (none, [Warn.tooFar "Foo" 750])
    ∧ (processRow havFar cfg0 extParis [] 1 rowA1).outRec.latitude = none
    ∧ (processRow havFar cfg0 extParis [] 1 rowA1).outRec.longitude = none := by
  have h := c3_out_of_region_rejected_never_output havFar cfg0 extParis [] 1
    rowA1 (349 / 8) (39 / 10) (by decide) (by decide) (by decide)
    (fun q c hqc => (by norm_num : (30 : ℚ) < 750))
  refine ⟨?_, ?_, ?_⟩
  · exact h.1 "Foo" { lat := 4885 / 100, lon := 235 / 100 } rfl
  · exact (h.2 (by decide)).1.trans (by decide)
  · exact (h.2 (by decide)).2.trans (by decide)

/-- C4 counterexample: the claim says a row with empty address and label
increments the unresolved/skipped counter. The code skips the whole
geocoding block when no query can be built, so the row gets null
coordinates without raising, but `missing_geo` is not incremented. -/
theorem c4_counterexample_no_counter :
    (processRow hav0 cfg0 extNone [] 1 rowNoLoc).outRec.latitude = none
    ∧ (processRow hav0 cfg0 extNone [] 1 rowNoLoc).outRec.longitude = none
    ∧ (processRow hav0 cfg0 extNone [] 1 rowNoLoc).outRec.surface_m2 = none
    ∧ (processRow hav0 cfg0 extNone [] 1 rowNoLoc).calls = []
    ∧ (processRow hav0 cfg0 extNone [] 1 rowNoLoc).missedInc ≠ 1 := by
  decide

/-- C4 amended: a row whose address and label are both empty and whose
coordinates do not parse produces an output record with null latitude
and longitude and does not raise, but the `missing_geo` counter is not
incremented (it counts only rows whose geocoding attempt failed), no
external call is issued and the cache is untouched. -/
theorem c4_amended_null_coords_no_count (hav : ℚ → ℚ → ℚ → ℚ → ℚ)
    (cfg : GeoConfig) (ext : String → Option Coord) (cache0 : Cache)
    (i : Nat) (raw : Row)
    (ha : pyStrip (orEmpty (cleanRow raw).adresse) = "")
    (hl : pyStrip (orEmpty (cleanRow raw).label) = "")
    (hlat : to_float (cleanRow raw).latitude = none)
    (hlon : to_float (cleanRow raw).longitude = none) :
    (processRow hav cfg ext cache0 i raw).outRec.latitude = none
    ∧ (processRow hav cfg ext cache0 i raw).outRec.longitude = none
    ∧ (processRow hav cfg ext cache0 i raw).calls = []
    ∧ (processRow hav cfg ext cache0 i raw).cache = cache0
    ∧ (processRow hav cfg ext cache0 i raw).missedInc = 0 := by
  have hq : buildQuery cfg (cleanRow raw) = "" := by
    unfold buildQuery
    dsimp only
    rw [ha, hl]
    rfl
  have hg := geoPhase_noQuery hav cfg ext cache0 i (cleanRow raw) hq
  refine ⟨?_, ?_, ?_, ?_, ?_⟩
  · show (geoPhase hav cfg ext cache0 i (cleanRow raw)).lat = none
    rw [hg]
    exact hlat
  · show (geoPhase hav cfg ext cache0 i (cleanRow raw)).lon = none
    rw [hg]
    exact hlon
  · show (geoPhase hav cfg ext cache0 i (cleanRow raw)).calls = []
    rw [hg]
  · show (geoPhase hav cfg ext cache0 i (cleanRow raw)).cache = cache0
    rw [hg]
  · show (geoPhase hav cfg ext cache0 i (cleanRow raw)).missedInc = 0
    rw [hg]

/-- C4 witness: the amended behaviour at a concrete empty-location row. -/
theorem c4_witness :
    (processRow hav0 cfg0 extNone [] 2 rowNoLoc).outRec.latitude = none
    ∧ (processRow hav0 cfg0 extNone [] 2 rowNoLoc).outRec.longitude = none
    ∧ (processRow hav0 cfg0 extNone [] 2 rowNoLoc).calls = []
    ∧ (processRow hav0 cfg0 extNone [] 2 rowNoLoc).cache = []
    ∧ (processRow hav0 cfg0 extNone [] 2 rowNoLoc).missedInc = 0 :=
  c4_amended_null_coords_no_count hav0 cfg0 extNone [] 2 rowNoLoc
    (by decide) (by decide) (by decide) (by decide)

/-- C5 counterexample: the claim says at most one external lookup per
unique query key per run, and that every rejected candidate — the
fallback included — gets a negative entry under its own key. Two rows
with distinct failing addresses and the same label make the run issue
the identical fallback query (same text, same region, hence same key)
twice, and the final cache holds no entry at all under the fallback
query's own key. -/
theorem c5_counterexample_fallback_key :
    (runAll hav0 cfg0 extNone [] [rowAdr1, rowAdr2]).calls
      = ["Addr One St", "Quartier Ovalie, Montpellier, France",
         "Addr Two St", "Quartier Ovalie, Montpellier, France"]
    ∧ (runAll hav0 cfg0 extNone [] [rowAdr1, rowAdr2]).calls.count
        "Quartier Ovalie, Montpellier, France" = 2
    ∧ List.lookup (cacheKey cfg0 "Quartier Ovalie, Montpellier, France")
        (runAll hav0 cfg0 extNone [] [rowAdr1, rowAdr2]).cache = none := by
  decide

/-- C5 amended: a cache hit (a stored positive entry) for the first
candidate's key suppresses every external call and returns the stored
coordinate; on a miss, the lookup outcome — the fallback's result
included, positive or negative — is stored only under the first
candidate's key, and the first external call is for the first
candidate. -/
theorem c5_amended_first_key_only (hav : ℚ → ℚ → ℚ → ℚ → ℚ)
    (cfg : GeoConfig) (ext : String → Option Coord) (cache0 : Cache)
    (row : Row) (query : String) :
    (∀ c, dictGet cache0 (cacheKey cfg query) = some c →
      resolveStep hav cfg ext cache0 row query =
        { loc := some c, cache := cache0, calls := [], warns := [] })
    ∧ (dictGet cache0 (cacheKey cfg query) = none →
      (resolveStep hav cfg ext cache0 row query).cache
          = dictSet cache0 (cacheKey cfg query)
              (resolveStep hav cfg ext cache0 row query).loc
      ∧ (resolveStep hav cfg ext cache0 row query).calls.head? = some query) :=
  ⟨fun c h => resolveStep_hit hav cfg ext cache0 row query c h,
   fun h => resolveStep_miss hav cfg ext cache0 row query h⟩

/-- C5 witness: the amended behaviour at concrete inputs — a hit
suppresses calls, a miss stores under the first candidate's key. -/
theorem c5_witness :
    resolveStep hav0 cfg0 extNone
        [(cacheKey cfg0 "Rue Y", some { lat := 1, lon := 2 })] rowAdr1 "Rue Y"
      = { loc := some { lat := 1, lon := 2 },
          cache := [(cacheKey cfg0 "Rue Y", some { lat := 1, lon := 2 })],
          calls := [], warns := [] }
    ∧ (resolveStep hav0 cfg0 extNone [] rowAdr1 "Addr One St").cache
        = dictSet [] (cacheKey cfg0 "Addr One St")
            (resolveStep hav0 cfg0 extNone [] rowAdr1 "Addr One St").loc
    ∧ (resolveStep hav0 cfg0 extNone [] rowAdr1 "Addr One St").calls.head?
        = some "Addr One St" :=
  ⟨(c5_amended_first_key_only hav0 cfg0 extNone
      [(cacheKey cfg0 "Rue Y", some { lat := 1, lon := 2 })] rowAdr1 "Rue Y").1
      { lat := 1, lon := 2 } (by decide),
   (c5_amended_first_key_only hav0 cfg0 extNone [] rowAdr1 "Addr One St").2
      (by decide)⟩

/-- C6: a record whose row carries two parseable coordinates keeps
exactly those values in the output, no external call is made, the cache
and counter are untouched, and a second resolution (with the resulting
cache) is identical — idempotence. -/
theorem c6_existing_coords_idempotent (hav : ℚ → ℚ → ℚ → ℚ → ℚ)
    (cfg : GeoConfig) (ext : String → Option Coord) (cache0 : Cache)
    (i : Nat) (raw : Row) (a b : ℚ)
    (h1 : to_float (cleanRow raw).latitude = some a)
    (h2 : to_float (cleanRow raw).longitude = some b) :
    (processRow hav cfg ext cache0 i raw).outRec.latitude = some a
    ∧ (processRow hav cfg ext cache0 i raw).outRec.longitude = some b
    ∧ (processRow hav cfg ext cache0 i raw).calls = []
    ∧ (processRow hav cfg ext cache0 i raw).cache = cache0
    ∧ (processRow hav cfg ext cache0 i raw).missedInc = 0
    ∧ processRow hav cfg ext (processRow hav cfg ext cache0 i raw).cache i raw
        = processRow hav cfg ext cache0 i raw := by
  have hg := geoPhase_coords_present hav cfg ext cache0 i (cleanRow raw) a b h1 h2
  have hc : (processRow hav cfg ext cache0 i raw).cache = cache0 := by
    show (geoPhase hav cfg ext cache0 i (cleanRow raw)).cache = cache0
    rw [hg]
  refine ⟨?_, ?_, ?_, hc, ?_, ?_⟩
  · show (geoPhase hav cfg ext cache0 i (cleanRow raw)).lat = some a
    rw [hg]
  · show (geoPhase hav cfg ext cache0 i (cleanRow raw)).lon = some b
    rw [hg]
  · show (geoPhase hav cfg ext cache0 i (cleanRow raw)).calls = []
    rw [hg]
  · show (geoPhase hav cfg ext cache0 i (cleanRow raw)).missedInc = 0
    rw [hg]
  · rw [hc]

/-- C6 witness: a row with coordinates `43,6` / `3.87` keeps exactly
those parsed values, with no call and no cache change, twice over. -/
theorem c6_witness :
    (processRow hav0 cfg0 extNone [] 1 rowCoords).outRec.latitude
        = some (218 / 5)
    ∧ (processRow hav0 cfg0 extNone [] 1 rowCoords).outRec.longitude
        = some (387 / 100)
    ∧ (processRow hav0 cfg0 extNone [] 1 rowCoords).calls = []
    ∧ (processRow hav0 cfg0 extNone [] 1 rowCoords).cache = []
    ∧ (processRow hav0 cfg0 extNone [] 1 rowCoords).missedInc = 0
    ∧ processRow hav0 cfg0 extNone
        (processRow hav0 cfg0 extNone [] 1 rowCoords).cache 1 rowCoords
        = processRow hav0 cfg0 extNone [] 1 rowCoords :=
  c6_existing_coords_idempotent hav0 cfg0 extNone [] 1 rowCoords
    (218 / 5) (387 / 100) (by decide) (by decide)

/-- C7: with an empty address and a non-empty label, the built query is
exactly the label combined with the city hint behind the `Quartier`
qualifier, and (when the coordinates are missing and the key is not
cached) it is the first query sent to the external lookup. -/
theorem c7_label_fallback_first (cfg : GeoConfig) (raw : Row) (lab : String)
    (ha : pyStrip (orEmpty (cleanRow raw).adresse) = "")
    (hl : pyStrip (orEmpty (cleanRow raw).label) = lab)
    (hlab : lab ≠ "") :
    buildQuery cfg (cleanRow raw) = "Quartier " ++ lab ++ ", " ++ cfg.cityHint
    ∧ ∀ (hav : ℚ → ℚ → ℚ → ℚ → ℚ) (ext : String → Option Coord)
        (cache0 : Cache) (i : Nat),
        to_float (cleanRow raw).latitude = none →
        dictGet cache0 (cacheKey cfg (buildQuery cfg (cleanRow raw))) = none →
        (processRow hav cfg ext cache0 i raw).calls.head?
          = some ("Quartier " ++ lab ++ ", " ++ cfg.cityHint) := by
  have hq : buildQuery cfg (cleanRow raw)
      = "Quartier " ++ lab ++ ", " ++ cfg.cityHint := by
    unfold buildQuery
    dsimp only
    rw [ha, hl, if_pos rfl, if_neg hlab]
  refine ⟨hq, ?_⟩
  intro hav ext cache0 i hlat hmiss
  have hcalls := (resolveStep_miss hav cfg ext cache0 (cleanRow raw)
    (buildQuery cfg (cleanRow raw)) hmiss).2
  rw [hq] at hcalls hmiss
  have hbc : (("Quartier " ++ lab ++ ", " ++ cfg.cityHint) != "") = true :=
    bne_iff_ne.mpr (quartier_ne_empty lab cfg.cityHint)
  show (geoPhase hav cfg ext cache0 i (cleanRow raw)).calls.head? = _
  unfold geoPhase
  dsimp only
  rw [hlat, hq, hbc]
  simp only [Option.isNone_none, Bool.true_or, Bool.true_and]
  cases hL : (resolveStep hav cfg ext cache0 (cleanRow raw)
      ("Quartier " ++ lab ++ ", " ++ cfg.cityHint)).loc with
  | none => exact hcalls
  | some c => exact hcalls

/-- C7 witness: label `Ovalie` under the default city hint gives the
candidate `Quartier Ovalie, Montpellier, France`, sent first. -/
theorem c7_witness :
    buildQuery cfg0 (cleanRow rowLabelOnly)
        = "Quartier Ovalie, Montpellier, France"
    ∧ (processRow hav0 cfg0 extNone [] 1 rowLabelOnly).calls.head?
        = some "Quartier Ovalie, Montpellier, France" := by
  have h := c7_label_fallback_first cfg0 rowLabelOnly "Ovalie"
    (by decide) (by decide) (by decide)
  exact ⟨h.1, h.2 hav0 extNone [] 1 (by decide) (by decide)⟩

/-- C8: when the configured bounding-box string does not parse as four
comma-separated floats, the region constraint is disabled entirely: no
`viewbox`/`bounded` parameter is sent to the lookup, and the lookup
wrapper applies no distance check — it returns the external result
unchanged, with no warning; the run proceeds (every operation is
total). -/
theorem c8_invalid_viewbox_disables_constraint (cfg : GeoConfig)
    (hs : parse_viewbox cfg.viewboxStr = none) :
    viewboxParam cfg = none
    ∧ (geocodeParams cfg).viewbox = none
    ∧ (geocodeParams cfg).bounded = none
    ∧ ∀ (hav : ℚ → ℚ → ℚ → ℚ → ℚ) (ext : String → Option Coord)
        (q : String), geocode_query hav cfg ext q = (ext q, []) := by
  have hv : viewboxParam cfg = none := by
    unfold viewboxParam
    rw [hs]
    rfl
  have hcl : centerLat cfg = none := by
    unfold centerLat
    rw [hs]
    rfl
  refine ⟨hv, ?_, ?_, ?_⟩
  · show viewboxParam cfg = none
    exact hv
  · show (viewboxParam cfg).map (fun _ => true) = none
    rw [hv]
    rfl
  · intro hav ext q
    unfold geocode_query
    cases hE : ext q with
    | none => rfl
    | some loc => rw [hcl]

/-- C8 witness: with the unparsable viewbox string `oops`, no
viewbox/bounded parameters are sent and an out-of-region Paris result
is returned unchanged (no distance check applies). -/
theorem c8_witness :
    (geocodeParams cfgBad).viewbox = none
    ∧ (geocodeParams cfgBad).bounded = none
    ∧ geocode_query hav0 cfgBad extParis "Rue X"
        = (some { lat := 4885 / 100, lon := 235 / 100 }, []) := by
  have h := c8_invalid_viewbox_disables_constraint cfgBad (by decide)
  exact ⟨h.2.1, h.2.2.1, h.2.2.2 hav0 extParis "Rue X"⟩

/-- C9: the numeric parsers are total and comma-tolerant: `None`, the
empty string and an unparsable string give `None` (serialized as null)
for both `to_float` and `to_int`, and the comma-decimal string `45,5`
parses to 45.5 (truncated to 45 by `to_int`). -/
theorem c9_numeric_parsers_total :
    to_float none = none
    ∧ to_float (some "") = none
    ∧ to_float (some "abc") = none
    ∧ to_float (some "45,5") = some (91 / 2)
    ∧ to_int none = none
    ∧ to_int (some "") = none
    ∧ to_int (some "abc") = none
    ∧ to_int (some "45,5") = some 45 := by
  decide

/-- C10: when exactly one coordinate parses from the row, the record is
treated as unresolved; a successful resolution then overwrites both
coordinates with the looked-up values — the coordinate that was present
in the input is not preserved. -/
theorem c10_partial_coords_overwritten (hav : ℚ → ℚ → ℚ → ℚ → ℚ)
    (cfg : GeoConfig) (ext : String → Option Coord) (cache0 : Cache)
    (i : Nat) (raw : Row) (a : ℚ) (c : Coord) (ws : List Warn)
    (hone : to_float (cleanRow raw).latitude = some a
              ∧ to_float (cleanRow raw).longitude = none
          ∨ to_float (cleanRow raw).latitude = none
              ∧ to_float (cleanRow raw).longitude = some a)
    (hmiss : dictGet cache0 (cacheKey cfg (buildQuery cfg (cleanRow raw))) = none)
    (hext : geocode_query hav cfg ext (buildQuery cfg (cleanRow raw)) = (some c, ws))
    (hq : buildQuery cfg (cleanRow raw) ≠ "") :
    (processRow hav cfg ext cache0 i raw).outRec.latitude = some c.lat
    ∧ (processRow hav cfg ext cache0 i raw).outRec.longitude = some c.lon := by
  have hstep := resolveStep_first_success hav cfg ext cache0 (cleanRow raw)
    (buildQuery cfg (cleanRow raw)) c ws hmiss hext
  have hcond : ((to_float (cleanRow raw).latitude).isNone
      || (to_float (cleanRow raw).longitude).isNone) = true := by
    rcases hone with ⟨h1, h2⟩ | ⟨h1, h2⟩
    · rw [h2]
      simp
    · rw [h1]
      simp
  have hbq : (buildQuery cfg (cleanRow raw) != "") = true := bne_iff_ne.mpr hq
  constructor
  · show (geoPhase hav cfg ext cache0 i (cleanRow raw)).lat = some c.lat
    unfold geoPhase
    dsimp only
    rw [hcond, hbq, hstep]
    rfl
  · show (geoPhase hav cfg ext cache0 i (cleanRow raw)).lon = some c.lon
    unfold geoPhase
    dsimp only
    rw [hcond, hbq, hstep]
    rfl

/-- C10 witness: a row with only a latitude `43,6` and a resolvable
address ends with both coordinates replaced by the looked-up
Montpellier values (the input latitude 43.6 is gone). -/
theorem c10_witness :
    (processRow hav0 cfg0 extComedie [] 1 rowHalf).outRec.latitude
        = some (43608 / 1000)
    ∧ (processRow hav0 cfg0 extComedie [] 1 rowHalf).outRec.longitude
        = some (3879 / 1000) :=
  c10_partial_coords_overwritten hav0 cfg0 extComedie [] 1 rowHalf
    (218 / 5) { lat := 43608 / 1000, lon := 3879 / 1000 } []
    (Or.inl ⟨by decide, by decide⟩) (by decide) (by decide) (by decide)

end Geocode
